import Mathlib

/-!
Verification development for the LoRaWan monitor repository.

The repository contains three scripts sharing one decode pipeline:
`decrypt_lora.py`, `rak_signal_monitor.py` and `v4_lorawan_monitor.py`.
Bytes are modelled as `Nat` values (every byte produced by the base64
decoder is `< 256`); byte buffers are `List Nat`; fallible Python
functions that return `None` on failure are modelled as `Option`-valued
functions; functions that return an error dictionary are modelled with a
dedicated result inductive.  The AES-ECB single-block primitive supplied
by pycryptodome is abstracted as a `block : List Nat → List Nat`
parameter (the scripts never inspect the block cipher's output
structure, only its length).
-/

/-- One 6-bit value of the standard base64 alphabet, `none` for every
other character (`=` included). Mirrors the alphabet used by Python's
`base64.b64decode`. -/
def b64Val (c : Char) : Option Nat :=
  if 'A' ≤ c ∧ c ≤ 'Z' then some (c.toNat - 65)
  else if 'a' ≤ c ∧ c ≤ 'z' then some (c.toNat - 71)
  else if '0' ≤ c ∧ c ≤ '9' then some (c.toNat + 4)
  else if c = '+' then some 62
  else if c = '/' then some 63
  else none

/-- Decode a run of 4-character base64 groups.  `=` padding is accepted
only at the end of the final group (one or two characters); a leftover
group of fewer than four characters is a decoding error.  This mirrors
`base64.b64decode` on its documented input language (the scripts wrap
every call in `try`/`except`, so a decode error surfaces as `none`). -/
def b64Groups : List Char → Option (List Nat)
  | [] => some []
  | a :: b :: c :: d :: rest =>
    match b64Val a, b64Val b with
    | some va, some vb =>
      if c = '=' then
        if d = '=' ∧ rest = [] then some [va * 4 + vb / 16] else none
      else
        match b64Val c with
        | some vc =>
          if d = '=' then
            if rest = [] then some [va * 4 + vb / 16, vb % 16 * 16 + vc / 4]
            else none
          else
            match b64Val d with
            | some vd =>
              (b64Groups rest).map
                (fun t => (va * 4 + vb / 16) :: (vb % 16 * 16 + vc / 4) ::
                  (vc % 4 * 64 + vd) :: t)
            | none => none
        | none => none
    | _, _ => none
  | _ => none

/-- Model of `base64.b64decode` (non-validating mode): characters
outside the alphabet and `=` are discarded, then the remaining
characters are decoded in groups of four. -/
def b64decode (s : String) : Option (List Nat) :=
  b64Groups (s.data.filter (fun c => (b64Val c).isSome || c = '='))

/-- Uppercase hex digit of a value `< 16`, as in Python's
`bytes.hex().upper()`. -/
def hexDigitU (n : Nat) : Char :=
  Char.ofNat (if n < 10 then 48 + n else 55 + n)

/-- `bytes.hex().upper()`: two uppercase hex digits per byte. -/
def hexUpper (bs : List Nat) : String :=
  ⟨(bs.map (fun b => [hexDigitU (b / 16 % 16), hexDigitU (b % 16)])).flatten⟩

/-- The dictionary built by `parse_lorawan_packet` in `decrypt_lora.py`
(lines 19–65) and `rak_signal_monitor.py` (lines 65–108); the two
functions are textually identical. -/
structure LoraPacketInfo where
  mhdr : Nat
  msgType : Nat
  devAddr : String
  fctrl : Nat
  fcnt : Nat
  fport : Option Nat
  payloadStart : Nat
  packetBytes : List Nat
deriving Repr, DecidableEq

/-- Byte-level core of `parse_lorawan_packet`: reject frames shorter
than 12 bytes, reject message types other than unconfirmed (0b010) and
confirmed (0b100) uplink, display DevAddr byte-reversed, take FCnt
little-endian from bytes 6..8, and assign FPort = byte 8 with payload
offset 9 exactly when `FCtrl & 0x0F == 0` and the frame is longer than
12 bytes (offset 8 and no FPort otherwise). -/
def parseLorawanPacketBytes (bs : List Nat) : Option LoraPacketInfo :=
  if bs.length < 12 then none
  else if (bs.getD 0 0 >>> 5) &&& 7 = 2 ∨ (bs.getD 0 0 >>> 5) &&& 7 = 4 then
    if bs.getD 5 0 &&& 15 = 0 ∧ 12 < bs.length then
      some ⟨bs.getD 0 0, (bs.getD 0 0 >>> 5) &&& 7,
        hexUpper ((bs.drop 1).take 4).reverse, bs.getD 5 0,
        bs.getD 6 0 + 256 * bs.getD 7 0, some (bs.getD 8 0), 9, bs⟩
    else
      some ⟨bs.getD 0 0, (bs.getD 0 0 >>> 5) &&& 7,
        hexUpper ((bs.drop 1).take 4).reverse, bs.getD 5 0,
        bs.getD 6 0 + 256 * bs.getD 7 0, none, 8, bs⟩
  else none

/-- `parse_lorawan_packet` on the base64 payload string (decode, then
parse; any decode failure yields `None` through the bare `except`). -/
def parse_lorawan_packet (s : String) : Option LoraPacketInfo :=
  (b64decode s).bind parseLorawanPacketBytes

/-- The dictionary built by `parse_lorawan_frame` in
`v4_lorawan_monitor.py` (lines 64–97); this variant records no message
type and displays DevAddr in wire order. -/
structure V4FrameInfo where
  mhdr : Nat
  devAddr : String
  fctrl : Nat
  fcnt : Nat
  fport : Option Nat
  payloadStart : Nat
  packetBytes : List Nat
deriving Repr, DecidableEq

/-- Byte-level core of `parse_lorawan_frame` (v4 variant): reject
frames shorter than 12 bytes; no message-type check; DevAddr displayed
in wire order; FPort = byte 8 with offset 9 whenever the frame is
longer than 8 bytes, regardless of FCtrl. -/
def parseLorawanFrameBytes (bs : List Nat) : Option V4FrameInfo :=
  if bs.length < 12 then none
  else if 8 < bs.length then
    some ⟨bs.getD 0 0, hexUpper ((bs.drop 1).take 4), bs.getD 5 0,
      bs.getD 6 0 + 256 * bs.getD 7 0, some (bs.getD 8 0), 9, bs⟩
  else
    some ⟨bs.getD 0 0, hexUpper ((bs.drop 1).take 4), bs.getD 5 0,
      bs.getD 6 0 + 256 * bs.getD 7 0, none, 8, bs⟩

/-- `parse_lorawan_frame` on the base64 payload string. -/
def parse_lorawan_frame (s : String) : Option V4FrameInfo :=
  (b64decode s).bind parseLorawanFrameBytes

/-- Inversion of a successful `parseLorawanPacketBytes` run: recovers
the frame-length bound, the message-type restriction and every stored
field. -/
theorem parseLorawanPacketBytes_inv (bs : List Nat) (info : LoraPacketInfo)
    (h : parseLorawanPacketBytes bs = some info) :
    12 ≤ bs.length ∧ info.packetBytes = bs ∧
    info.mhdr = bs.getD 0 0 ∧
    info.msgType = (bs.getD 0 0 >>> 5) &&& 7 ∧
    (info.msgType = 2 ∨ info.msgType = 4) ∧
    info.devAddr = hexUpper ((bs.drop 1).take 4).reverse ∧
    info.fctrl = bs.getD 5 0 ∧
    info.fcnt = bs.getD 6 0 + 256 * bs.getD 7 0 ∧
    ((bs.getD 5 0 &&& 15 = 0 ∧ 12 < bs.length) ∧
        info.fport = some (bs.getD 8 0) ∧ info.payloadStart = 9 ∨
      ¬(bs.getD 5 0 &&& 15 = 0 ∧ 12 < bs.length) ∧
        info.fport = none ∧ info.payloadStart = 8) := by
  unfold parseLorawanPacketBytes at h
  split_ifs at h with h1 h2 h3
  · injection h with h4
    subst h4
    exact ⟨by omega, rfl, rfl, rfl, h2, rfl, rfl, rfl,
      Or.inl ⟨h3, rfl, rfl⟩⟩
  · injection h with h4
    subst h4
    exact ⟨by omega, rfl, rfl, rfl, h2, rfl, rfl, rfl,
      Or.inr ⟨h3, rfl, rfl⟩⟩

/-- Any successfully parsed packet has room for the 4-byte MIC after
the payload offset (so the "too short" branches downstream are
unreachable). -/
theorem parseLorawanPacketBytes_micRoom (bs : List Nat)
    (info : LoraPacketInfo) (h : parseLorawanPacketBytes bs = some info) :
    info.payloadStart + 4 ≤ info.packetBytes.length := by
  obtain ⟨h12, hpkt, -, -, -, -, -, -, hbr⟩ :=
    parseLorawanPacketBytes_inv bs info h
  rcases hbr with ⟨hc, -, hps⟩ | ⟨hc, -, hps⟩ <;> rw [hps, hpkt] <;> omega

/-- Inversion of a successful `parseLorawanFrameBytes` run (v4
variant): with at least 12 bytes, the `len > payload_start` test always
succeeds, so FPort is always byte 8 and the offset always 9. -/
theorem parseLorawanFrameBytes_inv (bs : List Nat) (info : V4FrameInfo)
    (h : parseLorawanFrameBytes bs = some info) :
    12 ≤ bs.length ∧ info.packetBytes = bs ∧
    info.mhdr = bs.getD 0 0 ∧
    info.devAddr = hexUpper ((bs.drop 1).take 4) ∧
    info.fctrl = bs.getD 5 0 ∧
    info.fcnt = bs.getD 6 0 + 256 * bs.getD 7 0 ∧
    info.fport = some (bs.getD 8 0) ∧ info.payloadStart = 9 := by
  unfold parseLorawanFrameBytes at h
  split_ifs at h with h1 h2
  · injection h with h4
    subst h4
    exact ⟨by omega, rfl, rfl, rfl, rfl, rfl, rfl, rfl⟩
  · omega

/-- Core of the device filter shared by `check_device_match`
(`decrypt_lora.py` lines 99–110): given a parsed packet, accept exactly
the frames whose payload (MIC excluded) is 22 bytes long on port 2;
frames without room for the MIC are rejected. -/
def deviceFilter (info : LoraPacketInfo) : Bool :=
  if info.payloadStart + 4 ≤ info.packetBytes.length then
    decide (info.packetBytes.length - info.payloadStart - 4 = 22 ∧
      info.fport = some 2)
  else false

/-- `check_device_match` applied to an extracted base64 payload string:
parse, then filter (parse failure rejects). -/
def checkDeviceMatchPayload (s : String) : Bool :=
  match parse_lorawan_packet s with
  | none => false
  | some info => deviceFilter info

/-- A concrete 35-byte uplink frame: MHDR `0x40`, DevAddr
`01 02 03 04`, FCtrl 0, FCnt 0, FPort 2, 22 payload bytes `0x11`,
4-byte MIC. -/
def frame35 : List Nat :=
  [0x40, 1, 2, 3, 4, 0, 0, 0, 2] ++ List.replicate 22 0x11 ++
    [0xDE, 0xAD, 0xBE, 0xEF]

/-- The parse result of `frame35` under the `decrypt_lora`/`rak`
parser. -/
def infoC : LoraPacketInfo :=
  ⟨0x40, 2, "04030201", 0, 0, some 2, 9, frame35⟩

example : parseLorawanPacketBytes frame35 = some infoC := by decide

/-- C1: for every parsed frame and the default device signature
(expected payload length 22, expected port 2), the device filter
accepts iff the message type is an uplink type (0b010 or 0b100), the
frame length minus the payload offset minus 4 equals 22, and the port
is 2; in every other case (the frame-too-short branch included) it
rejects. -/
theorem deviceFilter_accept_iff (bs : List Nat) (info : LoraPacketInfo)
    (h : parseLorawanPacketBytes bs = some info) :
    deviceFilter info = true ↔
      (info.msgType = 2 ∨ info.msgType = 4) ∧
      info.packetBytes.length - info.payloadStart - 4 = 22 ∧
      info.fport = some 2 := by
  obtain ⟨-, -, -, -, hmsg, -, -, -, -⟩ :=
    parseLorawanPacketBytes_inv bs info h
  have hps := parseLorawanPacketBytes_micRoom bs info h
  unfold deviceFilter
  rw [if_pos hps, decide_eq_true_iff]
  exact ⟨fun hp => ⟨hmsg, hp⟩, fun hp => hp.2⟩

/-- Witness for C1: `frame35` parses and is accepted. -/
theorem deviceFilter_accept_iff_witness : deviceFilter infoC = true :=
  (deviceFilter_accept_iff frame35 infoC (by decide)).mpr (by decide)

/-- C2: on every successfully parsed frame (decoded length ≥ 12),
FOptsLen is `FCtrl & 0x0F`; if it is zero and the frame is longer than
12 bytes then FPort is byte 8 and the payload offset is 9, and in every
other case the frame has no FPort and the payload offset is 8. -/
theorem parse_fport_rule (bs : List Nat) (info : LoraPacketInfo)
    (h : parseLorawanPacketBytes bs = some info) :
    info.fctrl = bs.getD 5 0 ∧
    (info.fctrl &&& 15 = 0 ∧ 12 < bs.length →
      info.fport = some (bs.getD 8 0) ∧ info.payloadStart = 9) ∧
    (¬(info.fctrl &&& 15 = 0 ∧ 12 < bs.length) →
      info.fport = none ∧ info.payloadStart = 8) := by
  obtain ⟨-, -, -, -, -, -, hfc, -, hbr⟩ :=
    parseLorawanPacketBytes_inv bs info h
  rw [hfc]
  refine ⟨rfl, fun hc => ?_, fun hc => ?_⟩
  · rcases hbr with ⟨-, hres⟩ | ⟨hnc, -⟩
    · exact hres
    · exact absurd hc hnc
  · rcases hbr with ⟨hc2, -⟩ | ⟨-, hres⟩
    · exact absurd hc2 hc
    · exact hres

/-- Witness for C2: `frame35` has `FCtrl = 0` and length 35 > 12, so
FPort is byte 8 (= 2) with payload offset 9. -/
theorem parse_fport_rule_witness :
    infoC.fport = some (frame35.getD 8 0) ∧ infoC.payloadStart = 9 :=
  (parse_fport_rule frame35 infoC (by decide)).2.1 (by decide)

/-- C9: on every frame of decoded length ≥ 12 whose message type is a
valid uplink, both parser variants succeed, and the v4 parser displays
DevAddr as the uppercase hex of wire-order bytes 1..5 while the
`decrypt_lora`/`rak` parser displays the uppercase hex of the same four
bytes reversed: the two display policies differ exactly by 4-byte
reversal on the same input. -/
theorem devAddr_display_policies (bs : List Nat) (h12 : 12 ≤ bs.length)
    (hup : (bs.getD 0 0 >>> 5) &&& 7 = 2 ∨ (bs.getD 0 0 >>> 5) &&& 7 = 4) :
    ∃ a : List Nat, a.length = 4 ∧ a = (bs.drop 1).take 4 ∧
      (∃ iv, parseLorawanFrameBytes bs = some iv ∧
        iv.devAddr = hexUpper a) ∧
      (∃ il, parseLorawanPacketBytes bs = some il ∧
        il.devAddr = hexUpper a.reverse) := by
  refine ⟨(bs.drop 1).take 4, ?_, rfl, ?_, ?_⟩
  · rw [List.length_take, List.length_drop]
    omega
  · unfold parseLorawanFrameBytes
    rw [if_neg (by omega), if_pos (by omega)]
    exact ⟨_, rfl, rfl⟩
  · unfold parseLorawanPacketBytes
    rw [if_neg (by omega), if_pos hup]
    by_cases hc : bs.getD 5 0 &&& 15 = 0 ∧ 12 < bs.length
    · rw [if_pos hc]
      exact ⟨_, rfl, rfl⟩
    · rw [if_neg hc]
      exact ⟨_, rfl, rfl⟩

/-- Witness for C9 at the concrete uplink frame `frame35`. -/
theorem devAddr_display_policies_witness :
    ∃ a : List Nat, a.length = 4 ∧ a = (frame35.drop 1).take 4 ∧
      (∃ iv, parseLorawanFrameBytes frame35 = some iv ∧
        iv.devAddr = hexUpper a) ∧
      (∃ il, parseLorawanPacketBytes frame35 = some il ∧
        il.devAddr = hexUpper a.reverse) :=
  devAddr_display_policies frame35 (by decide) (by decide)

/-- C8: both frame parser variants are total `Option`-valued functions
of the base64 string (the Python bodies sit under a bare `except`): a
failed base64 decode yields no frame, and so does any decoded buffer
shorter than 12 bytes. -/
theorem parse_total_malformed (s : String) :
    (b64decode s = none →
      parse_lorawan_packet s = none ∧ parse_lorawan_frame s = none) ∧
    (∀ bs, b64decode s = some bs → bs.length < 12 →
      parse_lorawan_packet s = none ∧ parse_lorawan_frame s = none) := by
  constructor
  · intro h
    unfold parse_lorawan_packet parse_lorawan_frame
    rw [h]
    exact ⟨rfl, rfl⟩
  · intro bs h hlt
    have h1 : parseLorawanPacketBytes bs = none := by
      unfold parseLorawanPacketBytes
      rw [if_pos hlt]
    have h2 : parseLorawanFrameBytes bs = none := by
      unfold parseLorawanFrameBytes
      rw [if_pos hlt]
    unfold parse_lorawan_packet parse_lorawan_frame
    rw [h]
    simp [h1, h2]

/-- Witness for C8: `"QUJD"` decodes to the 3-byte buffer `ABC`, which
both parsers map to `none`. -/
theorem parse_total_malformed_witness :
    parse_lorawan_packet "QUJD" = none ∧
      parse_lorawan_frame "QUJD" = none :=
  (parse_total_malformed "QUJD").2 [65, 66, 67] (by decide) (by decide)

/-- Zero-padding to the next multiple of 16, as in both decryptors:
`if len % 16 != 0: data += b"\x00" * (16 - len % 16)`. -/
def pad16 (data : List Nat) : List Nat :=
  if data.length % 16 = 0 then data
  else data ++ List.replicate (16 - data.length % 16) 0

/-- Split a buffer into consecutive 16-byte blocks (fuel-indexed so the
definition is structural; the fuel is the buffer length, which always
suffices because every step consumes at least one element). -/
def chunk16Aux : Nat → List Nat → List (List Nat)
  | 0, _ => []
  | _ + 1, [] => []
  | n + 1, a :: rest =>
    (a :: rest).take 16 :: chunk16Aux n ((a :: rest).drop 16)

/-- The consecutive 16-byte blocks of a buffer. -/
def chunk16 (l : List Nat) : List (List Nat) := chunk16Aux l.length l

theorem chunk16Aux_congr :
    ∀ (n m : Nat) (l : List Nat), l.length ≤ n → l.length ≤ m →
      chunk16Aux n l = chunk16Aux m l := by
  intro n
  induction n with
  | zero =>
    intro m l h1 h2
    have : l = [] := List.eq_nil_of_length_eq_zero (by omega)
    subst this
    cases m <;> rfl
  | succ k ih =>
    intro m l h1 h2
    cases l with
    | nil => cases m <;> rfl
    | cons a rest =>
      cases m with
      | zero => simp at h2
      | succ j =>
        show _ :: chunk16Aux k ((a :: rest).drop 16) =
          _ :: chunk16Aux j ((a :: rest).drop 16)
        congr 1
        apply ih
        · rw [List.length_drop]
          simp only [List.length_cons] at h1 ⊢
          omega
        · rw [List.length_drop]
          simp only [List.length_cons] at h2 ⊢
          omega

theorem chunk16_cons (l : List Nat) (h : l ≠ []) :
    chunk16 l = l.take 16 :: chunk16 (l.drop 16) := by
  obtain ⟨a, rest, rfl⟩ := List.exists_cons_of_ne_nil h
  show (a :: rest).take 16 :: chunk16Aux rest.length ((a :: rest).drop 16)
      = (a :: rest).take 16 :: chunk16 ((a :: rest).drop 16)
  congr 1
  apply chunk16Aux_congr
  · rw [List.length_drop]
    simp only [List.length_cons]
    omega
  · exact le_rfl

/-- The placeholder cipher of the scripts, `AES.MODE_ECB` decryption:
the abstract single-block primitive `block` is applied to each 16-byte
block independently — no chaining, no IV. -/
def ecbDecrypt (block : List Nat → List Nat) (data : List Nat) :
    List Nat :=
  ((chunk16 data).map block).flatten

/-- An ECB decrypt of a buffer whose length is `16 * n` has the same
length, provided the block primitive maps 16-byte blocks to 16-byte
blocks (as AES does). -/
theorem ecbDecrypt_length (block : List Nat → List Nat)
    (hblock : ∀ b : List Nat, b.length = 16 → (block b).length = 16) :
    ∀ (n : Nat) (data : List Nat), data.length = 16 * n →
      (ecbDecrypt block data).length = data.length := by
  intro n
  induction n with
  | zero =>
    intro data hd
    have : data = [] := List.eq_nil_of_length_eq_zero (by omega)
    subst this
    rfl
  | succ k ih =>
    intro data hd
    have hne : data ≠ [] := by
      intro hnil
      subst hnil
      simp at hd
    unfold ecbDecrypt
    rw [chunk16_cons data hne, List.map_cons, List.flatten_cons,
      List.length_append]
    have h1 : (data.take 16).length = 16 := by
      rw [List.length_take]
      omega
    have h2 := ih (data.drop 16) (by rw [List.length_drop]; omega)
    unfold ecbDecrypt at h2
    rw [hblock _ h1, h2, List.length_drop]
    omega

/-- `ecbDecrypt` preserves the length of any buffer that is a whole
number of 16-byte blocks. -/
theorem ecbDecrypt_length_mod (block : List Nat → List Nat)
    (hblock : ∀ b : List Nat, b.length = 16 → (block b).length = 16)
    (data : List Nat) (hd : data.length % 16 = 0) :
    (ecbDecrypt block data).length = data.length :=
  ecbDecrypt_length block hblock (data.length / 16) data (by omega)

/-- The decrypt step of `decrypt_payload` in `decrypt_lora.py` (lines
157–167): pad, then decrypt `padded[:32]` when the padded buffer has at
least 32 bytes, all of it otherwise. -/
def loraDecryptCore (block : List Nat → List Nat) (payload : List Nat) :
    List Nat :=
  if 32 ≤ (pad16 payload).length then
    ecbDecrypt block ((pad16 payload).take 32)
  else ecbDecrypt block (pad16 payload)

/-- The decrypt step of `decrypt_payload` in `rak_signal_monitor.py`
(lines 154–160): pad, then decrypt only `padded[:16]`. -/
def rakDecryptCore (block : List Nat → List Nat) (payload : List Nat) :
    List Nat :=
  ecbDecrypt block ((pad16 payload).take 16)

theorem pad16_eq (payload : List Nat) :
    pad16 payload =
      payload ++ List.replicate ((16 - payload.length % 16) % 16) 0 := by
  unfold pad16
  split_ifs with h
  · rw [h]
    simp
  · have h2 : (16 - payload.length % 16) % 16 = 16 - payload.length % 16 :=
      Nat.mod_eq_of_lt (by omega)
    rw [h2]

theorem pad16_length (payload : List Nat) :
    (pad16 payload).length = 16 * ((payload.length + 15) / 16) := by
  rw [pad16_eq, List.length_append, List.length_replicate]
  omega

/-- C3 counterexample: a 33-byte payload pads to 48 bytes but the
`decrypt_lora` decryptor outputs only 32; a 22-byte payload pads to 32
bytes but the `rak` decryptor outputs only 16.  (The identity block
primitive is a length-preserving instance.) -/
theorem decrypt_output_length_counterexample :
    (loraDecryptCore id (List.replicate 33 0)).length = 32 ∧
    (pad16 (List.replicate 33 0)).length = 48 ∧
    (rakDecryptCore id (List.replicate 22 0)).length = 16 ∧
    (pad16 (List.replicate 22 0)).length = 32 := by
  decide

/-- C3 (amended): for every non-empty payload and length-preserving
block primitive, the payload is right-padded with zero bytes to the
next multiple of 16 (at least one block), and the output consists of
independently decrypted 16-byte blocks of a truncated prefix of the
padded buffer: the `decrypt_lora` variant decrypts `padded[:32]`, so
its output length is `min(paddedLength, 32)`; the `rak` variant
decrypts `padded[:16]`, so its output length is 16. -/
theorem decrypt_padding_and_length (block : List Nat → List Nat)
    (hblock : ∀ b : List Nat, b.length = 16 → (block b).length = 16)
    (payload : List Nat) (hne : payload ≠ []) :
    pad16 payload =
      payload ++ List.replicate ((16 - payload.length % 16) % 16) 0 ∧
    (pad16 payload).length = 16 * ((payload.length + 15) / 16) ∧
    16 ≤ (pad16 payload).length ∧
    loraDecryptCore block payload =
      ecbDecrypt block ((pad16 payload).take 32) ∧
    (loraDecryptCore block payload).length =
      min (pad16 payload).length 32 ∧
    (rakDecryptCore block payload).length = 16 := by
  have hlen := pad16_length payload
  have hpos : 0 < payload.length := List.length_pos.mpr hne
  have h16 : 16 ≤ (pad16 payload).length := by omega
  refine ⟨pad16_eq payload, hlen, h16, ?_, ?_, ?_⟩
  · unfold loraDecryptCore
    split_ifs with h32
    · rfl
    · rw [List.take_of_length_le (by omega)]
  · unfold loraDecryptCore
    split_ifs with h32
    · have ht : ((pad16 payload).take 32).length = 32 := by
        rw [List.length_take]
        omega
      rw [ecbDecrypt_length_mod block hblock _ (by rw [ht]), ht]
      omega
    · rw [ecbDecrypt_length_mod block hblock _ (by omega)]
      omega
  · unfold rakDecryptCore
    have ht : ((pad16 payload).take 16).length = 16 := by
      rw [List.length_take]
      omega
    rw [ecbDecrypt_length_mod block hblock _ (by rw [ht])]
    exact ht

/-- Witness for C3 (amended) at the 22-byte all-zero payload with the
identity block primitive. -/
theorem decrypt_padding_and_length_witness :
    pad16 (List.replicate 22 0) =
      List.replicate 22 0 ++ List.replicate ((16 - 22 % 16) % 16) 0 ∧
    (pad16 (List.replicate 22 0)).length = 16 * ((22 + 15) / 16) ∧
    16 ≤ (pad16 (List.replicate 22 0)).length ∧
    loraDecryptCore id (List.replicate 22 0) =
      ecbDecrypt id ((pad16 (List.replicate 22 0)).take 32) ∧
    (loraDecryptCore id (List.replicate 22 0)).length =
      min (pad16 (List.replicate 22 0)).length 32 ∧
    (rakDecryptCore id (List.replicate 22 0)).length = 16 := by
  have h := decrypt_padding_and_length id (fun b hb => hb)
    (List.replicate 22 0) (by decide)
  simpa using h

/-- `int.from_bytes(two bytes, 'big', signed=True)`. -/
def toSigned16 (hi lo : Nat) : Int :=
  if 32768 ≤ hi * 256 + lo then (hi * 256 + lo : Int) - 65536
  else (hi * 256 + lo : Int)

/-- Signed big-endian 16-bit read at byte offset `i`. -/
def rd16s (bs : List Nat) (i : Nat) : Int :=
  toSigned16 (bs.getD i 0) (bs.getD (i + 1) 0)

/-- Unsigned big-endian 16-bit read at byte offset `i`. -/
def rd16u (bs : List Nat) (i : Nat) : Nat :=
  bs.getD i 0 * 256 + bs.getD (i + 1) 0

/-- Full telemetry tier (≥ 22 decrypted bytes): accelerometer ÷1000,
gyroscope ÷10, magnetometer ÷10 including z, and the two ToF ranges
with `0xFFFF` meaning out of range.  The Python floats are modelled as
exact rationals. -/
structure FullTelemetry where
  ax : ℚ
  ay : ℚ
  az : ℚ
  gx : ℚ
  gy : ℚ
  gz : ℚ
  mx : ℚ
  my : ℚ
  mz : ℚ
  tofC : Option Nat
  tofD : Option Nat
deriving DecidableEq, Repr

/-- Reduced telemetry tier (16–21 decrypted bytes): accelerometer,
gyroscope, magnetometer x and y only — no mag-z, no ToF. -/
structure AccelGyroMagXY where
  ax : ℚ
  ay : ℚ
  az : ℚ
  gx : ℚ
  gy : ℚ
  gz : ℚ
  mx : ℚ
  my : ℚ
deriving DecidableEq, Repr

/-- The ≥ 22-byte decode of `decrypt_lora.py` lines 171–202 (the same
byte layout is decoded by `v4_lorawan_monitor.py` lines 167–200). -/
def decodeFull (bs : List Nat) : FullTelemetry :=
  { ax := (rd16s bs 0 : ℚ) / 1000
    ay := (rd16s bs 2 : ℚ) / 1000
    az := (rd16s bs 4 : ℚ) / 1000
    gx := (rd16s bs 6 : ℚ) / 10
    gy := (rd16s bs 8 : ℚ) / 10
    gz := (rd16s bs 10 : ℚ) / 10
    mx := (rd16s bs 12 : ℚ) / 10
    my := (rd16s bs 14 : ℚ) / 10
    mz := (rd16s bs 16 : ℚ) / 10
    tofC := if rd16u bs 18 = 0xFFFF then none else some (rd16u bs 18)
    tofD := if rd16u bs 20 = 0xFFFF then none else some (rd16u bs 20) }

/-- The 16–21-byte decode of `decrypt_lora.py` lines 203–220: only
bytes 0..15 are read. -/
def decodeAccelGyroMagXY (bs : List Nat) : AccelGyroMagXY :=
  { ax := (rd16s bs 0 : ℚ) / 1000
    ay := (rd16s bs 2 : ℚ) / 1000
    az := (rd16s bs 4 : ℚ) / 1000
    gx := (rd16s bs 6 : ℚ) / 10
    gy := (rd16s bs 8 : ℚ) / 10
    gz := (rd16s bs 10 : ℚ) / 10
    mx := (rd16s bs 12 : ℚ) / 10
    my := (rd16s bs 14 : ℚ) / 10 }

/-- The three completeness tiers of the telemetry decoder. -/
inductive TelemetryTier where
  | full (t : FullTelemetry)
  | accelGyroMagXY (t : AccelGyroMagXY)
  | incomplete
deriving DecidableEq, Repr

/-- Tier selection of `decrypt_payload` in `decrypt_lora.py` (lines
171, 203): `len >= 22` → full, `elif len >= 16` → reduced, otherwise
nothing is decoded. -/
def decodeTelemetry (bs : List Nat) : TelemetryTier :=
  if 22 ≤ bs.length then .full (decodeFull bs)
  else if 16 ≤ bs.length then .accelGyroMagXY (decodeAccelGyroMagXY bs)
  else .incomplete

theorem getD_take_lt (l : List Nat) (n i : Nat) (h : i < n) :
    (l.take n).getD i 0 = l.getD i 0 := by
  rw [List.getD_eq_getElem?_getD, List.getD_eq_getElem?_getD,
    List.getElem?_take, if_pos h]

/-- C4: the telemetry decoder selects the completeness tier by decoded
length — ≥ 22 bytes give full telemetry (mag-z read from offset 16 and
both ToF fields, with `0xFFFF` decoding to "absent"); 16–21 bytes give
accel, gyro and mag x,y only, reading no byte past index 15 (the decode
depends only on the first 16 bytes); < 16 bytes give no telemetry. -/
theorem telemetry_tiers (bs : List Nat) :
    (22 ≤ bs.length →
      decodeTelemetry bs = .full (decodeFull bs) ∧
      ((decodeFull bs).tofC = none ↔ rd16u bs 18 = 0xFFFF) ∧
      ((decodeFull bs).tofD = none ↔ rd16u bs 20 = 0xFFFF) ∧
      (decodeFull bs).mz = (rd16s bs 16 : ℚ) / 10) ∧
    (16 ≤ bs.length → bs.length < 22 →
      decodeTelemetry bs = .accelGyroMagXY (decodeAccelGyroMagXY bs) ∧
      decodeTelemetry bs = decodeTelemetry (bs.take 16)) ∧
    (bs.length < 16 → decodeTelemetry bs = .incomplete) := by
  refine ⟨fun h22 => ⟨?_, ?_, ?_, rfl⟩, fun h16 h22 => ⟨?_, ?_⟩,
    fun h16 => ?_⟩
  · unfold decodeTelemetry
    rw [if_pos h22]
  · unfold decodeFull
    split_ifs <;> simp_all
  · unfold decodeFull
    split_ifs <;> simp_all
  · unfold decodeTelemetry
    rw [if_neg (by omega), if_pos h16]
  · have hlt : (bs.take 16).length = 16 := by
      rw [List.length_take]
      omega
    unfold decodeTelemetry
    rw [if_neg (by omega), if_pos h16, if_neg (by omega), if_pos (by omega)]
    have heq : decodeAccelGyroMagXY (bs.take 16) = decodeAccelGyroMagXY bs := by
      unfold decodeAccelGyroMagXY rd16s
      simp [getD_take_lt]
    rw [heq]
  · unfold decodeTelemetry
    rw [if_neg (by omega), if_neg (by omega)]

/-- Witness for C4 at a concrete 16-byte buffer. -/
theorem telemetry_tiers_witness :
    decodeTelemetry (List.replicate 16 0) =
      .accelGyroMagXY (decodeAccelGyroMagXY (List.replicate 16 0)) ∧
    decodeTelemetry (List.replicate 16 0) =
      decodeTelemetry ((List.replicate 16 0).take 16) :=
  (telemetry_tiers (List.replicate 16 0)).2.1 (by decide) (by decide)

/-- The end-to-end sample payload hard-coded in
`rak_signal_monitor.py`'s test mode (line 386). -/
def sampleB64 : String := "QAEBAgMEBQYHCAkKCwwNDg8="

/-- What `sampleB64` actually decodes to: 17 bytes, not 23. -/
def sampleBytes : List Nat :=
  [0x40, 0x01, 0x01, 0x02, 0x03, 0x04, 0x05, 0x06, 0x07, 0x08, 0x09,
    0x0A, 0x0B, 0x0C, 0x0D, 0x0E, 0x0F]

/-- The parse result of `sampleBytes`: FCtrl is `0x04`, so FOptsLen is
4 and the frame carries no FPort. -/
def sampleInfo : LoraPacketInfo :=
  ⟨0x40, 2, "03020101", 4, 1541, none, 8, sampleBytes⟩

/-- C6 counterexample: the sample base64 string decodes to a 17-byte
frame, not a 23-byte one. -/
theorem sample_frame_counterexample :
    (b64decode sampleB64).map List.length = some 17 ∧ (17 : Nat) ≠ 23 := by
  decide

/-- C6 (amended): the sample decodes to 17 bytes with MHDR `0x40`
(uplink type 0b010); parsing succeeds, DevAddr display is the
byte-reversed hex of decoded bytes 1..5 (`03020101`) and FCnt is the
little-endian value of bytes 6..8 (1541). -/
theorem sample_frame_decode :
    b64decode sampleB64 = some sampleBytes ∧
    sampleBytes.length = 17 ∧
    sampleBytes.getD 0 0 = 0x40 ∧
    ((0x40 : Nat) >>> 5) &&& 7 = 2 ∧
    parse_lorawan_packet sampleB64 = some sampleInfo ∧
    sampleInfo.devAddr = hexUpper ((sampleBytes.drop 1).take 4).reverse ∧
    sampleInfo.devAddr = "03020101" ∧
    sampleInfo.fcnt = sampleBytes.getD 6 0 + 256 * sampleBytes.getD 7 0 ∧
    sampleInfo.fcnt = 1541 := by
  decide

/-- `packet_bytes[payload_start:-4]`: the encrypted application payload
of a parsed packet, MIC excluded. -/
def extractedPayload (info : LoraPacketInfo) : List Nat :=
  (info.packetBytes.take (info.packetBytes.length - 4)).drop
    info.payloadStart

theorem extractedPayload_length (info : LoraPacketInfo)
    (h : info.payloadStart + 4 ≤ info.packetBytes.length) :
    (extractedPayload info).length =
      info.packetBytes.length - info.payloadStart - 4 := by
  unfold extractedPayload
  rw [List.length_drop, List.length_take]
  omega

/-- The 16-byte AppKey `21222324252627282A2B2C2D2E2F3031` shared by
all three scripts. -/
def v4AppKey : List Nat :=
  [0x21, 0x22, 0x23, 0x24, 0x25, 0x26, 0x27, 0x28, 0x2A, 0x2B, 0x2C,
    0x2D, 0x2E, 0x2F, 0x30, 0x31]

/-- The outcomes of `decrypt_payload` in `rak_signal_monitor.py`
(lines 127–192): the error dictionaries, in code order, and the success
dictionary (DevAddr, FCnt, FPort, decrypted bytes; the sensor-data
display derived from the decrypted bytes is omitted — it always
succeeds and adds no outcome). -/
inductive RakDecryptResult where
  | unavailable
  | invalidStructure
  | tooShort
  | emptyPayload
  | badKey
  | ok (devAddr : String) (fcnt : Nat) (fport : Option Nat)
      (decrypted : List Nat)
deriving DecidableEq, Repr

/-- `decrypt_payload` of `rak_signal_monitor.py`.  `cryptoAvailable`
models the `CRYPTO_AVAILABLE` import flag, `key` the bytes obtained
from the configured AppKey hex, and `block` the AES single-block
primitive.  `AES.new` raises (caught as an error result) exactly when
the key length is not an accepted AES key size — 16, 24 or 32 bytes. -/
def rak_decrypt_payload (cryptoAvailable : Bool) (key : List Nat)
    (block : List Nat → List Nat) (dataB64 : String) :
    RakDecryptResult :=
  if cryptoAvailable = false then .unavailable
  else
    match parse_lorawan_packet dataB64 with
    | none => .invalidStructure
    | some info =>
      if info.packetBytes.length < info.payloadStart + 4 then .tooShort
      else if (extractedPayload info).length = 0 then .emptyPayload
      else if ¬(key.length = 16 ∨ key.length = 24 ∨ key.length = 32) then
        .badKey
      else
        .ok info.devAddr info.fcnt info.fport
          (rakDecryptCore block (extractedPayload info))

/-- Base64 encoding of `frame35` (as emitted by a packet forwarder). -/
def frame35B64 : String :=
  "QAECAwQAAAACEREREREREREREREREREREREREREREd6tvu8="

example : b64decode frame35B64 = some frame35 := by decide

example : parse_lorawan_packet frame35B64 = some infoC := by decide

/-- C5 counterexample: with the cryptographic backend present, a
24-byte key — which is "not exactly 16 bytes" — does not produce a
decryption error: `AES.new` accepts 16-, 24- and 32-byte keys, so the
decryptor succeeds. -/
theorem rak_decrypt_key24_counterexample :
    (List.replicate 24 0 : List Nat).length ≠ 16 ∧
    rak_decrypt_payload true (List.replicate 24 0) id frame35B64 =
      .ok "04030201" 0 (some 2) (List.replicate 16 0x11) := by
  constructor
  · decide
  · decide

/-- C5 (amended): the decryptor fails with the backend-unavailable
outcome exactly when no cryptographic backend is present; given the
backend, it fails with a decryption error (empty payload or bad key)
exactly when the packet parses and the extracted payload is empty or
the key length is not an accepted AES key size (16, 24 or 32 bytes);
for every parsed packet with non-empty payload and accepted key size it
succeeds; and the packet-too-short branch is unreachable. -/
theorem rak_decrypt_classification (crypto : Bool) (key : List Nat)
    (block : List Nat → List Nat) (s : String) :
    (rak_decrypt_payload crypto key block s = .unavailable ↔
      crypto = false) ∧
    rak_decrypt_payload crypto key block s ≠ .tooShort ∧
    (crypto = true →
      ((rak_decrypt_payload crypto key block s = .emptyPayload ∨
          rak_decrypt_payload crypto key block s = .badKey) ↔
        ∃ info, parse_lorawan_packet s = some info ∧
          (extractedPayload info = [] ∨
            ¬(key.length = 16 ∨ key.length = 24 ∨ key.length = 32)))) ∧
    (crypto = true → ∀ info, parse_lorawan_packet s = some info →
      extractedPayload info ≠ [] →
      (key.length = 16 ∨ key.length = 24 ∨ key.length = 32) →
      rak_decrypt_payload crypto key block s =
        .ok info.devAddr info.fcnt info.fport
          (rakDecryptCore block (extractedPayload info))) := by
  cases crypto with
  | false => simp [rak_decrypt_payload]
  | true =>
    cases hp : parse_lorawan_packet s with
    | none => simp [rak_decrypt_payload, hp]
    | some info =>
      have hmic : info.payloadStart + 4 ≤ info.packetBytes.length := by
        unfold parse_lorawan_packet at hp
        cases hd : b64decode s with
        | none => rw [hd] at hp; simp at hp
        | some bs =>
          rw [hd] at hp
          exact parseLorawanPacketBytes_micRoom bs info hp
      have hnoshort : ¬(info.packetBytes.length < info.payloadStart + 4) := by
        omega
      by_cases hemp : (extractedPayload info).length = 0
      · have hempl : extractedPayload info = [] :=
          List.eq_nil_of_length_eq_zero hemp
        simp [rak_decrypt_payload, hp, hnoshort, hemp, hempl]
      · have hempl : extractedPayload info ≠ [] := by
          intro hc
          rw [hc] at hemp
          simp at hemp
        by_cases hkey : key.length = 16 ∨ key.length = 24 ∨ key.length = 32
        · simp [rak_decrypt_payload, hp, hnoshort, hemp, hkey, hempl]
        · simp [rak_decrypt_payload, hp, hnoshort, hemp, hkey, hempl]

/-- Witness for C5 (amended): the concrete frame with the configured
16-byte AppKey decrypts successfully. -/
theorem rak_decrypt_classification_witness :
    rak_decrypt_payload true v4AppKey id frame35B64 =
      .ok "04030201" 0 (some 2) (List.replicate 16 0x11) := by
  have h := (rak_decrypt_classification true v4AppKey id
    frame35B64).2.2.2 rfl infoC (by decide) (by decide) (by decide)
  rw [h]
  decide

/-- `packet_bytes[payload_start:-4]` for the v4 frame dictionary. -/
def extractedPayloadV4 (info : V4FrameInfo) : List Nat :=
  (info.packetBytes.take (info.packetBytes.length - 4)).drop
    info.payloadStart

/-- `is_v4_device` of `v4_lorawan_monitor.py` (lines 99–133), taking
the reception's `data` field: reject empty data and unparseable
frames, then accept exactly a 22-byte payload (MIC excluded) on
port 2. -/
def is_v4_device (data : String) : Bool :=
  if data = "" then false
  else
    match parse_lorawan_frame data with
    | none => false
    | some info =>
      if info.payloadStart + 4 ≤ info.packetBytes.length then
        decide (info.packetBytes.length - info.payloadStart - 4 = 22 ∧
          info.fport = some 2)
      else false

/-- The outcomes of `decrypt_v4_payload` in `v4_lorawan_monitor.py`
(lines 135–211), in code order. -/
inductive V4DecryptResult where
  | unavailable
  | invalidFrame
  | tooShort
  | invalidSize (n : Nat)
  | ok (info : V4FrameInfo) (sensor : Option FullTelemetry)
      (encrypted : List Nat) (decrypted : List Nat)
deriving DecidableEq, Repr

/-- `decrypt_v4_payload`: requires the backend, a parseable frame,
room for the MIC and an exactly-22-byte payload, then pads the payload
with zeros to 32 bytes, ECB-decrypts it with the fixed 16-byte AppKey
(abstracted as `block`), and decodes the full sensor layout when at
least 22 decrypted bytes are available. -/
def decrypt_v4_payload (cryptoAvailable : Bool)
    (block : List Nat → List Nat) (data : String) : V4DecryptResult :=
  if cryptoAvailable = false then .unavailable
  else
    match parse_lorawan_frame data with
    | none => .invalidFrame
    | some info =>
      if info.packetBytes.length < info.payloadStart + 4 then .tooShort
      else if (extractedPayloadV4 info).length ≠ 22 then
        .invalidSize (extractedPayloadV4 info).length
      else
        .ok info
          (if 22 ≤ (ecbDecrypt block (extractedPayloadV4 info ++
              List.replicate (32 - (extractedPayloadV4 info).length)
                0)).length then
            some (decodeFull (ecbDecrypt block (extractedPayloadV4 info ++
              List.replicate (32 - (extractedPayloadV4 info).length) 0)))
          else none)
          (extractedPayloadV4 info)
          (ecbDecrypt block (extractedPayloadV4 info ++
            List.replicate (32 - (extractedPayloadV4 info).length) 0))

example : is_v4_device frame35B64 = true := by decide

/-- C10: whenever the v4 device filter accepts a reception's data and
the cryptographic backend is present, the decryptor can reach neither
its "Packet too short" nor its "Invalid payload size" branch: the
filter guarantees an exactly-22-byte encrypted payload, which is padded
to 32 bytes and decrypted, and the full sensor decode applies (the
fixed AppKey really is 16 bytes, so `AES.new` cannot fail either). -/
theorem v4_filter_decrypt_guarantees (block : List Nat → List Nat)
    (hblock : ∀ b : List Nat, b.length = 16 → (block b).length = 16)
    (data : String) (hacc : is_v4_device data = true) :
    v4AppKey.length = 16 ∧
    ∃ info, parse_lorawan_frame data = some info ∧
      (extractedPayloadV4 info).length = 22 ∧
      decrypt_v4_payload true block data =
        .ok info
          (some (decodeFull (ecbDecrypt block
            (extractedPayloadV4 info ++ List.replicate 10 0))))
          (extractedPayloadV4 info)
          (ecbDecrypt block
            (extractedPayloadV4 info ++ List.replicate 10 0)) ∧
      (ecbDecrypt block
        (extractedPayloadV4 info ++ List.replicate 10 0)).length = 32 ∧
      (∀ n, decrypt_v4_payload true block data ≠ .invalidSize n) ∧
      decrypt_v4_payload true block data ≠ .tooShort := by
  unfold is_v4_device at hacc
  by_cases hdata : data = ""
  · rw [if_pos hdata] at hacc
    exact absurd hacc (by simp)
  rw [if_neg hdata] at hacc
  cases hp : parse_lorawan_frame data with
  | none =>
    rw [hp] at hacc
    exact absurd hacc (by simp)
  | some info =>
    rw [hp] at hacc
    have hacc2 : (if info.payloadStart + 4 ≤ info.packetBytes.length then
        decide (info.packetBytes.length - info.payloadStart - 4 = 22 ∧
          info.fport = some 2)
      else false) = true := hacc
    by_cases hroom : info.payloadStart + 4 ≤ info.packetBytes.length
    · rw [if_pos hroom, decide_eq_true_iff] at hacc2
      obtain ⟨hlen22, hport⟩ := hacc2
      have hexlen : (extractedPayloadV4 info).length = 22 := by
        unfold extractedPayloadV4
        rw [List.length_drop, List.length_take]
        omega
      have hpadlen :
          (extractedPayloadV4 info ++ List.replicate 10 0).length = 32 := by
        rw [List.length_append, List.length_replicate, hexlen]
      have hdeclen : (ecbDecrypt block
          (extractedPayloadV4 info ++ List.replicate 10 0)).length = 32 := by
        rw [ecbDecrypt_length_mod block hblock _ (by rw [hpadlen]), hpadlen]
      have heq : decrypt_v4_payload true block data =
          .ok info
            (some (decodeFull (ecbDecrypt block
              (extractedPayloadV4 info ++ List.replicate 10 0))))
            (extractedPayloadV4 info)
            (ecbDecrypt block
              (extractedPayloadV4 info ++ List.replicate 10 0)) := by
        unfold decrypt_v4_payload
        rw [if_neg (by simp)]
        simp only [hp]
        rw [if_neg (by omega), if_neg (by simp [hexlen]), hexlen]
        norm_num
        intro hlt
        rw [hdeclen] at hlt
        omega
      exact ⟨rfl, info, rfl, hexlen, heq, hdeclen,
        fun n => by rw [heq]; simp, by rw [heq]; simp⟩
    · rw [if_neg hroom] at hacc2
      exact absurd hacc2 (by simp)

/-- Witness for C10 at the concrete filtered frame `frame35B64` with
the identity block primitive. -/
theorem v4_filter_decrypt_guarantees_witness :
    v4AppKey.length = 16 ∧
    ∃ info, parse_lorawan_frame frame35B64 = some info ∧
      (extractedPayloadV4 info).length = 22 ∧
      decrypt_v4_payload true id frame35B64 =
        .ok info
          (some (decodeFull (ecbDecrypt id
            (extractedPayloadV4 info ++ List.replicate 10 0))))
          (extractedPayloadV4 info)
          (ecbDecrypt id
            (extractedPayloadV4 info ++ List.replicate 10 0)) ∧
      (ecbDecrypt id
        (extractedPayloadV4 info ++ List.replicate 10 0)).length = 32 ∧
      (∀ n, decrypt_v4_payload true id frame35B64 ≠ .invalidSize n) ∧
      decrypt_v4_payload true id frame35B64 ≠ .tooShort :=
  v4_filter_decrypt_guarantees id (fun _ hb => hb) frame35B64 (by decide)

/-- JSON values as produced by `json.loads`.  A number is stored
exactly as a decimal mantissa and power-of-ten exponent (`num m e`
denotes `m * 10 ^ e`); object key order is insertion order with
duplicate keys replaced, as in a Python dict. -/
inductive Json where
  | null
  | bool (b : Bool)
  | num (m : Int) (e : Int)
  | str (s : String)
  | arr (xs : List Json)
  | obj (kvs : List (String × Json))
deriving Repr

/-- The four whitespace characters accepted between JSON tokens. -/
def isJsonWs (c : Char) : Bool :=
  c = ' ' ∨ c = '\t' ∨ c = '\n' ∨ c = '\r'

def skipWs (cs : List Char) : List Char := cs.dropWhile isJsonWs

def hexVal (c : Char) : Option Nat :=
  if '0' ≤ c ∧ c ≤ '9' then some (c.toNat - 48)
  else if 'a' ≤ c ∧ c ≤ 'f' then some (c.toNat - 87)
  else if 'A' ≤ c ∧ c ≤ 'F' then some (c.toNat - 55)
  else none

/-- Body of a JSON string after the opening quote: returns the decoded
characters and the input after the closing quote.  Handles the standard
escapes; raw control characters are rejected (as `json.loads` does).
The fuel is the remaining input length, which suffices because every
step consumes at least one character. -/
def parseJsonStringAux : Nat → List Char → Option (List Char × List Char)
  | 0, _ => none
  | _ + 1, [] => none
  | n + 1, c :: rest =>
    if c = '"' then some ([], rest)
    else if c = '\\' then
      match rest with
      | [] => none
      | e :: rest2 =>
        if e = '"' ∨ e = '\\' ∨ e = '/' then
          (parseJsonStringAux n rest2).map (fun p => (e :: p.1, p.2))
        else if e = 'b' then
          (parseJsonStringAux n rest2).map
            (fun p => (Char.ofNat 8 :: p.1, p.2))
        else if e = 'f' then
          (parseJsonStringAux n rest2).map
            (fun p => (Char.ofNat 12 :: p.1, p.2))
        else if e = 'n' then
          (parseJsonStringAux n rest2).map (fun p => ('\n' :: p.1, p.2))
        else if e = 'r' then
          (parseJsonStringAux n rest2).map (fun p => ('\r' :: p.1, p.2))
        else if e = 't' then
          (parseJsonStringAux n rest2).map (fun p => ('\t' :: p.1, p.2))
        else if e = 'u' then
          match rest2 with
          | h1 :: h2 :: h3 :: h4 :: rest3 =>
            match hexVal h1, hexVal h2, hexVal h3, hexVal h4 with
            | some v1, some v2, some v3, some v4 =>
              (parseJsonStringAux n rest3).map
                (fun p =>
                  (Char.ofNat (v1 * 4096 + v2 * 256 + v3 * 16 + v4) ::
                    p.1, p.2))
            | _, _, _, _ => none
          | _ => none
        else none
    else if c.toNat < 32 then none
    else (parseJsonStringAux n rest).map (fun p => (c :: p.1, p.2))

def isDigitCh (c : Char) : Bool := '0' ≤ c ∧ c ≤ '9'

def digitsToNat (ds : List Char) : Nat :=
  ds.foldl (fun a c => a * 10 + (c.toNat - 48)) 0

/-- Optional fraction part `.digits`. -/
def parseFrac (cs : List Char) : Option (List Char × List Char) :=
  match cs with
  | '.' :: t =>
    if t.takeWhile isDigitCh = [] then none
    else some (t.takeWhile isDigitCh, t.dropWhile isDigitCh)
  | _ => some ([], cs)

/-- Optional exponent part `e[+-]digits`, as a signed decimal
exponent. -/
def parseExp (cs : List Char) : Option (Int × List Char) :=
  match cs with
  | c :: t =>
    if c = 'e' ∨ c = 'E' then
      match t with
      | '+' :: t2 =>
        if t2.takeWhile isDigitCh = [] then none
        else some ((digitsToNat (t2.takeWhile isDigitCh) : Int),
          t2.dropWhile isDigitCh)
      | '-' :: t2 =>
        if t2.takeWhile isDigitCh = [] then none
        else some (-(digitsToNat (t2.takeWhile isDigitCh) : Int),
          t2.dropWhile isDigitCh)
      | _ =>
        if t.takeWhile isDigitCh = [] then none
        else some ((digitsToNat (t.takeWhile isDigitCh) : Int),
          t.dropWhile isDigitCh)
    else some (0, cs)
  | [] => some (0, [])

/-- Unsigned JSON number (integer part without redundant leading
zeros, optional fraction and exponent), as mantissa and power-of-ten
exponent. -/
def parseJsonNumberPos (cs : List Char) : Option (Int × Int × List Char) :=
  let ds := cs.takeWhile isDigitCh
  let cs2 := cs.dropWhile isDigitCh
  if ds = [] then none
  else if 2 ≤ ds.length ∧ ds.headD '0' = '0' then none
  else
    match parseFrac cs2 with
    | none => none
    | some (fds, cs3) =>
      match parseExp cs3 with
      | none => none
      | some (e, cs4) =>
        some ((digitsToNat ds * 10 ^ fds.length + digitsToNat fds : Nat),
          e - (fds.length : Int), cs4)

def parseJsonNumber (cs : List Char) : Option (Int × Int × List Char) :=
  match cs with
  | '-' :: t => (parseJsonNumberPos t).map (fun p => (-p.1, p.2.1, p.2.2))
  | _ => parseJsonNumberPos cs

/-- Insert into an association list with Python-dict semantics: a
duplicate key keeps its position and takes the new value. -/
def insertKV (kvs : List (String × Json)) (k : String) (v : Json) :
    List (String × Json) :=
  match kvs with
  | [] => [(k, v)]
  | (k2, v2) :: rest =>
    if k2 = k then (k2, v) :: rest else (k2, v2) :: insertKV rest k v

/-- Parser states of the recursive-descent JSON reader (defunctionalized
so that the whole parser is one fuel-structural function). -/
inductive JMode where
  | value
  | arrayStart
  | arrayTail (acc : List Json)
  | objStart
  | objTail (acc : List (String × Json))

/-- Recursive-descent JSON parser, fuel-indexed: `value` parses one
JSON value; the other modes continue an array or object after its
opening bracket. -/
def parseJ : Nat → JMode → List Char → Option (Json × List Char)
  | 0, _, _ => none
  | n + 1, .value, cs =>
    match skipWs cs with
    | [] => none
    | c :: rest =>
      if c = 'n' then
        match rest with
        | 'u' :: 'l' :: 'l' :: r => some (.null, r)
        | _ => none
      else if c = 't' then
        match rest with
        | 'r' :: 'u' :: 'e' :: r => some (.bool true, r)
        | _ => none
      else if c = 'f' then
        match rest with
        | 'a' :: 'l' :: 's' :: 'e' :: r => some (.bool false, r)
        | _ => none
      else if c = '"' then
        (parseJsonStringAux rest.length rest).map
          (fun p => (Json.str ⟨p.1⟩, p.2))
      else if c = '[' then parseJ n .arrayStart rest
      else if c = '{' then parseJ n .objStart rest
      else if c = '-' ∨ isDigitCh c then
        (parseJsonNumber (c :: rest)).map
          (fun p => (Json.num p.1 p.2.1, p.2.2))
      else none
  | n + 1, .arrayStart, cs =>
    match skipWs cs with
    | ']' :: r => some (.arr [], r)
    | cs2 =>
      match parseJ n .value cs2 with
      | none => none
      | some (v, r) => parseJ n (.arrayTail [v]) r
  | n + 1, .arrayTail acc, cs =>
    match skipWs cs with
    | ',' :: r =>
      match parseJ n .value r with
      | none => none
      | some (v, r2) => parseJ n (.arrayTail (acc ++ [v])) r2
    | ']' :: r => some (.arr acc, r)
    | _ => none
  | n + 1, .objStart, cs =>
    match skipWs cs with
    | '}' :: r => some (.obj [], r)
    | '"' :: r =>
      match parseJsonStringAux r.length r with
      | none => none
      | some (kChars, r2) =>
        match skipWs r2 with
        | ':' :: r3 =>
          match parseJ n .value r3 with
          | none => none
          | some (v, r4) => parseJ n (.objTail (insertKV [] ⟨kChars⟩ v)) r4
        | _ => none
    | _ => none
  | n + 1, .objTail acc, cs =>
    match skipWs cs with
    | '}' :: r => some (.obj acc, r)
    | ',' :: r =>
      match skipWs r with
      | '"' :: r2 =>
        match parseJsonStringAux r2.length r2 with
        | none => none
        | some (kChars, r3) =>
          match skipWs r3 with
          | ':' :: r4 =>
            match parseJ n .value r4 with
            | none => none
            | some (v, r5) =>
              parseJ n (.objTail (insertKV acc ⟨kChars⟩ v)) r5
          | _ => none
      | _ => none
    | _ => none

/-- `json.loads`: one JSON value, with nothing but whitespace around
it.  The fuel `2 * length + 8` is sufficient for any input since at
most two parser steps are taken per input character. -/
def jsonLoads (cs : List Char) : Option Json :=
  match parseJ (2 * cs.length + 8) .value cs with
  | some (j, rest) => if skipWs rest = [] then some j else none
  | none => none

/-- The characters of the literal prefix of the pattern
`\x7b"rxpk":\[.*?\]\x7d` used by `re.search` in both monitors. -/
def litRxpk : List Char := ['{', '"', 'r', 'x', 'p', 'k', '"', ':', '[']

/-- The slice `s[a:b]` of a character list. -/
def listSlice (s : List Char) (a b : Nat) : List Char := (s.take b).drop a

def matchesLitAt (s : List Char) (i : Nat) : Bool :=
  listSlice s i (i + 9) == litRxpk

def closesAt (s : List Char) (j : Nat) : Bool :=
  listSlice s j (j + 2) == [']', '}']

/-- `.` in the pattern does not match a newline. -/
def dotsOk (s : List Char) (a b : Nat) : Bool :=
  (listSlice s a b).all (fun c => c ≠ '\n')

/-- `re.search` of the rxpk pattern: the leftmost starting position at
which the literal prefix matches and some closing `]at` follows, with
the lazy `.*?` taking the shortest non-newline span; returns the
matched substring. -/
def findRxpkGroup (s : List Char) : Option (List Char) :=
  (List.range s.length).findSome? (fun i =>
    if matchesLitAt s i then
      ((List.range' (i + 9) (s.length - (i + 9))).find? (fun j =>
          closesAt s j && dotsOk s (i + 9) j)).map
        (fun j => listSlice s i (j + 2))
    else none)

/-- The Python exceptions the classifier can raise.  The `except`
clause of `parse_lora_packet` catches only the first three. -/
inductive PyExc where
  | jsonDecodeError
  | keyError
  | indexError
  | attributeError
  | typeError
deriving DecidableEq, Repr

/-- Which exceptions the classifier's
`except (json.JSONDecodeError, KeyError, IndexError)` clause
catches. -/
def caughtExc : PyExc → Bool
  | .jsonDecodeError => true
  | .keyError => true
  | .indexError => true
  | .attributeError => false
  | .typeError => false

def objFind : List (String × Json) → String → Option Json
  | [], _ => none
  | (k, v) :: rest, key => if k = key then some v else objFind rest key

/-- Python truthiness of a JSON value (`m * 10 ^ e` is zero iff the
mantissa is). -/
def jsonTruthy : Json → Bool
  | .null => false
  | .bool b => b
  | .num m _ => if m = 0 then false else true
  | .str s => if s = "" then false else true
  | .arr xs => !xs.isEmpty
  | .obj kvs => !kvs.isEmpty

def jsonIsStr (j : Json) (s : String) : Bool :=
  match j with
  | .str t => t = s
  | _ => false

/-- `needle` occurs as a contiguous run inside `hay`. -/
def listIsInfix (needle hay : List Char) : Bool :=
  (List.range (hay.length + 1)).any
    (fun i => (hay.drop i).take needle.length == needle)

/-- Python `key in x` for a string key. -/
def pyContains (j : Json) (key : String) : Except PyExc Bool :=
  match j with
  | .obj kvs => .ok (objFind kvs key).isSome
  | .arr xs => .ok (xs.any (fun x => jsonIsStr x key))
  | .str s => .ok (listIsInfix key.data s.data)
  | _ => .error .typeError

/-- Python `x[key]` for a string key. -/
def pySubscript (j : Json) (key : String) : Except PyExc Json :=
  match j with
  | .obj kvs =>
    match objFind kvs key with
    | some v => .ok v
    | none => .error .keyError
  | _ => .error .typeError

/-- Python `x[0]`: lists index, strings index to a 1-character string,
dicts raise `KeyError`, everything else raises `TypeError`. -/
def pyIndexZero (j : Json) : Except PyExc Json :=
  match j with
  | .arr [] => .error .indexError
  | .arr (x :: _) => .ok x
  | .str s =>
    match s.data with
    | [] => .error .indexError
    | c :: _ => .ok (.str ⟨[c]⟩)
  | .obj _ => .error .keyError
  | _ => .error .typeError

/-- Python `x.get(key, default)`: only dicts have `.get`; every other
value raises `AttributeError`. -/
def pyGet (j : Json) (key : String) (dflt : Json) : Except PyExc Json :=
  match j with
  | .obj kvs => .ok ((objFind kvs key).getD dflt)
  | _ => .error .attributeError

/-- The reception record built by `parse_lora_packet` in
`rak_signal_monitor.py` (lines 38–63); `v4_lorawan_monitor.py` lines
37–62 are identical except for an extra `raw_json` field holding the
matched substring.  Fields hold the JSON values as extracted. -/
structure RawReception where
  timestamp : Json
  frequency : Json
  rssi : Json
  lsnr : Json
  datarate : Json
  size : Json
  data : Json
  channel : Json
deriving Repr

/-- The body of `parse_lora_packet` before its `except` clause, with
explicit exception propagation. -/
def parseLoraPacketBody (line : String) :
    Except PyExc (Option RawReception) :=
  match findRxpkGroup line.data with
  | none => .ok none
  | some group =>
    match jsonLoads group with
    | none => .error .jsonDecodeError
    | some packetData => do
      let hasKey ← pyContains packetData "rxpk"
      if !hasKey then return none
      let rxpkVal ← pySubscript packetData "rxpk"
      if !(jsonTruthy rxpkVal) then return none
      let rxpk ← pyIndexZero rxpkVal
      let t ← pyGet rxpk "time" (.str "")
      let fr ← pyGet rxpk "freq" (.num 0 0)
      let rs ← pyGet rxpk "rssi" (.num 0 0)
      let ls ← pyGet rxpk "lsnr" (.num 0 0)
      let dr ← pyGet rxpk "datr" (.str "")
      let sz ← pyGet rxpk "size" (.num 0 0)
      let da ← pyGet rxpk "data" (.str "")
      let ch ← pyGet rxpk "chan" (.num 0 0)
      return some ⟨t, fr, rs, ls, dr, sz, da, ch⟩

/-- `parse_lora_packet`: its `try`/`except
(json.JSONDecodeError, KeyError, IndexError)` turns only those three
exceptions into `None`; any other exception propagates to the
caller. -/
def parse_lora_packet (line : String) :
    Except PyExc (Option RawReception) :=
  match parseLoraPacketBody line with
  | .error e => if caughtExc e then .ok none else .error e
  | .ok r => .ok r

/-- The line `\x7b"rxpk":[5]\x7d`: syntactically valid JSON whose
`rxpk` array holds a number instead of an object. -/
def badRxpkLine : String :=
  ⟨['{', '"', 'r', 'x', 'p', 'k', '"', ':', '[', '5', ']', '}']⟩

/-- A well-formed line whose first rxpk element is an object. -/
def goodRxpkLine : String :=
  ⟨['{', '"', 'r', 'x', 'p', 'k', '"', ':', '[', '{', '"', 'r', 's',
    's', 'i', '"', ':', '-', '4', '5', '}', ']', '}']⟩

example : parse_lora_packet goodRxpkLine =
    .ok (some ⟨.str "", .num 0 0, .num (-45) 0, .num 0 0, .str "",
      .num 0 0, .str "", .num 0 0⟩) := by rfl

example : parse_lora_packet "no json here" = .ok none := by rfl

/-- C7: the classifier is not total — on the line
`\x7b"rxpk":[5]\x7d`, whose first `rxpk` element is a number rather
than an object, `rxpk.get('time', '')` raises `AttributeError`, which
the `except (json.JSONDecodeError, KeyError, IndexError)` clause does
not catch, so the error propagates out of the classifier (and would
abort the monitoring loop). -/
theorem parse_lora_packet_uncaught :
    parse_lora_packet badRxpkLine = .error .attributeError := by rfl
